import Mathlib

/-!
Shallow embedding of the devui conversation/checkpoint store and execution
event-streaming pipeline
(`agent_framework_devui/_conversations.py`, `agent_framework_devui/_executor.py`).

Python dictionaries are modelled as insertion-ordered association lists with
unique keys; `dictSet` keeps the position of an existing key (as CPython does),
`dictErase` removes the key.  Python exceptions are modelled with an explicit
error type: every mutating store operation returns the result (or the raised
error) together with the resulting store state, so that a raise before any
mutation visibly leaves the state unchanged.  Sources of nondeterminism
(uuid generation, wall-clock time) are passed in as parameters.
-/

namespace DevUI

/-- Insertion-ordered dictionary lookup (first matching key). -/
def dictLookup (k : String) : List (String × α) → Option α
  | [] => none
  | (k', v) :: rest => if k' = k then some v else dictLookup k rest

/-- `d[k] = v`: replace the value in place if the key exists, else append. -/
def dictSet (k : String) (v : α) : List (String × α) → List (String × α)
  | [] => [(k, v)]
  | (k', v') :: rest => if k' = k then (k, v) :: rest else (k', v') :: dictSet k v rest

/-- `del d[k]` / `d.pop(k, None)`: remove the entry with key `k`. -/
def dictErase (k : String) (l : List (String × α)) : List (String × α) :=
  l.filter fun p => p.1 ≠ k

/-- Python truthiness of an optional string (`None` and `""` are falsy). -/
def strTruthy : Option String → Bool
  | none => false
  | some s => s ≠ ""

/-- Content parts of an agent-framework `ChatMessage`
(`text`, `data`, `function_call`, `function_result`; anything else is
summarised by `otherContent`, whose `type` tag is none of the four). -/
inductive ChatContent where
  | text (text : String)
  | data (uri : String) (mediaType : Option String)
  | functionCall (callId : Option String) (name : String) (arguments : String)
  | functionResult (callId : Option String) (output : String)
  | otherContent (tag : String)
  deriving DecidableEq, Repr

/-- An agent-framework `ChatMessage`: a role plus ordered content parts. -/
structure ChatMessage where
  role : String
  contents : List ChatContent
  deriving DecidableEq, Repr

/-- An `AgentThread`: its message store's ordered history. -/
structure AgentThread where
  messages : List ChatMessage
  deriving DecidableEq, Repr

/-- Content parts of an OpenAI `Message` conversation item
(`TextContent`, `ResponseInputImage`, `ResponseInputFile`). -/
inductive ItemContent where
  | textContent (text : String)
  | inputImage (imageUrl : String)
  | inputFile (fileUrl : String) (filename : Option String)
  deriving DecidableEq, Repr

/-- Modelled from the spec: `WorkflowCheckpoint` lives in
`agent_framework._workflows._checkpoint`, which is not among the provided
sources.  Spec §6 fixes its observable format: `{checkpoint_id, workflow_id,
timestamp (ISO-8601 string)}` plus a serialized body, of which the claims use
`shared_state`. -/
structure WorkflowCheckpoint where
  checkpoint_id : String
  workflow_id : String
  timestamp : String
  shared_state : List (String × String)
  deriving DecidableEq, Repr

/-- The dictionary form produced by `WorkflowCheckpoint.to_dict`. -/
structure CheckpointDict where
  checkpoint_id : String
  workflow_id : String
  timestamp : String
  shared_state : List (String × String)
  deriving DecidableEq, Repr

/-- Modelled from the spec: serialization of a checkpoint to its dictionary
form records its fields (spec §6: the payload format carries the checkpoint's
fields plus the serialized body). -/
def WorkflowCheckpoint.to_dict (c : WorkflowCheckpoint) : CheckpointDict :=
  ⟨c.checkpoint_id, c.workflow_id, c.timestamp, c.shared_state⟩

/-- Modelled from the spec: `WorkflowCheckpoint.from_dict` restores a
checkpoint from its dictionary form. -/
def WorkflowCheckpoint.from_dict (d : CheckpointDict) : WorkflowCheckpoint :=
  ⟨d.checkpoint_id, d.workflow_id, d.timestamp, d.shared_state⟩

/-- `CONVERSATION_ITEM_TYPE_CHECKPOINT` -/
def CONVERSATION_ITEM_TYPE_CHECKPOINT : String := "checkpoint"

/-- `CONVERSATION_TYPE_CHECKPOINT_CONTAINER` -/
def CONVERSATION_TYPE_CHECKPOINT_CONTAINER : String := "checkpoint_container"

/-- An OpenAI `ConversationItem` as the store holds them: the three pydantic
item objects (`Message`, `ResponseFunctionToolCallItem`,
`ResponseFunctionToolCallOutputItem`) and the raw checkpoint `dict` that
`add_checkpoint_item` stores (it is a plain dictionary, not a pydantic
object). -/
inductive ConvItem where
  | message (id : String) (role : String) (content : List ItemContent)
  | functionCallItem (id : String) (callId : String) (name : String) (arguments : String)
  | functionOutputItem (id : String) (callId : String) (output : String)
  | checkpointItem (id : String) (createdAt : Int) (checkpointData : CheckpointDict)
  deriving DecidableEq, Repr

/-- Python errors the store can raise. -/
inductive PyErr where
  | valueError (msg : String)
  | attributeError (msg : String)
  deriving DecidableEq, Repr

/-- The value stored under the key `"id"` of an item (every variant has one). -/
def ConvItem.idKey : ConvItem → String
  | .message id _ _ => id
  | .functionCallItem id _ _ _ => id
  | .functionOutputItem id _ _ => id
  | .checkpointItem id _ _ => id

/-- Attribute access `item.id`: pydantic items expose it, but a checkpoint
item is a plain `dict`, so the attribute access raises `AttributeError`. -/
def ConvItem.idAttr : ConvItem → Except PyErr String
  | .message id _ _ => .ok id
  | .functionCallItem id _ _ _ => .ok id
  | .functionOutputItem id _ _ => .ok id
  | .checkpointItem _ _ _ =>
      .error (.attributeError "dict object has no attribute id")

/-- Whether a stored item is the checkpoint dictionary
(`isinstance(stored_item, dict) and stored_item.get("type") == "checkpoint"`). -/
def ConvItem.isCheckpointDict : ConvItem → Bool
  | .checkpointItem _ _ _ => true
  | _ => false

/-- The `Conversation` objects the store hands back. -/
structure Conversation where
  id : String
  created_at : Int
  metadata : Option (List (String × String))
  deriving DecidableEq, Repr

/-- `ConversationDeletedResource`. -/
structure ConversationDeletedResource where
  id : String
  deleted : Bool
  deriving DecidableEq, Repr

/-- One entry of `InMemoryConversationStore._conversations`. -/
structure ConvData where
  id : String
  thread : AgentThread
  metadata : List (String × String)
  created_at : Int
  items : List ConvItem
  deriving DecidableEq, Repr

/-- The state of an `InMemoryConversationStore`: the conversations map and
the derived item index. -/
structure Store where
  conversations : List (String × ConvData)
  item_index : List (String × List (String × ConvItem))
  deriving DecidableEq, Repr

/-- The empty store (`InMemoryConversationStore()`). -/
def Store.empty : Store := ⟨[], []⟩

/-- `InMemoryConversationStore.create_conversation`.  `genId` stands for the
generated `conv_<uuid4.hex>` and `now` for `int(time.time())`. -/
def create_conversation (s : Store) (metadata : Option (List (String × String)))
    (conversation_id : Option String) (genId : String) (now : Int) :
    Conversation × Store :=
  let conv_id := if strTruthy conversation_id then conversation_id.getD genId else genId
  let thread : AgentThread := ⟨[]⟩
  let conv_data : ConvData := ⟨conv_id, thread, metadata.getD [], now, []⟩
  (⟨conv_id, now, metadata⟩,
   ⟨dictSet conv_id conv_data s.conversations, dictSet conv_id [] s.item_index⟩)

/-- `InMemoryConversationStore.get_conversation`. -/
def get_conversation (s : Store) (conversation_id : String) : Option Conversation :=
  match dictLookup conversation_id s.conversations with
  | none => none
  | some conv_data => some ⟨conv_data.id, conv_data.created_at, some conv_data.metadata⟩

/-- `InMemoryConversationStore.update_conversation`. -/
def update_conversation (s : Store) (conversation_id : String)
    (metadata : List (String × String)) : Except PyErr Conversation × Store :=
  match dictLookup conversation_id s.conversations with
  | none =>
      (.error (.valueError ("Conversation " ++ conversation_id ++ " not found")), s)
  | some conv_data =>
      (.ok ⟨conv_data.id, conv_data.created_at, some metadata⟩,
       ⟨dictSet conversation_id { conv_data with metadata := metadata } s.conversations,
        s.item_index⟩)

/-- `InMemoryConversationStore.delete_conversation`. -/
def delete_conversation (s : Store) (conversation_id : String) :
    Except PyErr ConversationDeletedResource × Store :=
  match dictLookup conversation_id s.conversations with
  | none =>
      (.error (.valueError ("Conversation " ++ conversation_id ++ " not found")), s)
  | some _ =>
      (.ok ⟨conversation_id, true⟩,
       ⟨dictErase conversation_id s.conversations, dictErase conversation_id s.item_index⟩)

/-- A raw content part: `content_part.get("text", "")`. -/
structure RawPart where
  text : Option String
  deriving DecidableEq, Repr

/-- A raw item passed to `add_items`: `item.get("role", "user")` and
`item.get("content", [])`. -/
structure RawItem where
  role : Option String
  content : List RawPart
  deriving DecidableEq, Repr

/-- The body of the first conversion loop of `add_items`: build a
`ChatMessage` from a raw item (only the first content part's text is used). -/
def rawToChatMessage (item : RawItem) : ChatMessage :=
  let role := item.role.getD "user"
  let text := match item.content with
    | [] => ""
    | part :: _ => part.text.getD ""
  ⟨role, [ChatContent.text text]⟩

/-- The body of the second loop of `add_items`: build the `Message`
conversation item for one chat message, with a fresh uuid-based id. -/
def chatMessageToConvItem (freshId : String) (msg : ChatMessage) : ConvItem :=
  let message_content := msg.contents.filterMap fun c =>
    match c with
    | .text t => some (ItemContent.textContent t)
    | _ => none
  .message freshId msg.role message_content

/-- `InMemoryConversationStore.add_items`.  `freshIds j` stands for the
generated `item_<uuid4.hex>` of the `j`-th added item. -/
def add_items (s : Store) (conversation_id : String) (items : List RawItem)
    (freshIds : Nat → String) : Except PyErr (List ConvItem) × Store :=
  match dictLookup conversation_id s.conversations with
  | none =>
      (.error (.valueError ("Conversation " ++ conversation_id ++ " not found")), s)
  | some conv_data =>
      let chat_messages := items.map rawToChatMessage
      let thread' : AgentThread := ⟨conv_data.thread.messages ++ chat_messages⟩
      let conv_items := chat_messages.enum.map fun p => chatMessageToConvItem (freshIds p.1) p.2
      let conv_data' :=
        { conv_data with thread := thread', items := conv_data.items ++ conv_items }
      let index0 := (dictLookup conversation_id s.item_index).getD []
      let index' := conv_items.foldl
        (fun m it => if it.idKey ≠ "" then dictSet it.idKey it m else m) index0
      (.ok conv_items,
       ⟨dictSet conversation_id conv_data' s.conversations,
        dictSet conversation_id index' s.item_index⟩)

/-- `InMemoryConversationStore.add_checkpoint_item`.  `fromisoformat` stands
for `datetime.fromisoformat(...).timestamp()` (raises `ValueError`, modelled
as `none`, on a malformed timestamp). -/
def add_checkpoint_item (s : Store) (conversation_id : String)
    (checkpoint : WorkflowCheckpoint) (fromisoformat : String → Option Int) :
    Except PyErr ConvItem × Store :=
  match dictLookup conversation_id s.conversations with
  | none =>
      (.error (.valueError ("Conversation " ++ conversation_id ++ " not found")), s)
  | some conv_data =>
      match fromisoformat checkpoint.timestamp with
      | none =>
          (.error (.valueError ("Invalid isoformat string: " ++ checkpoint.timestamp)), s)
      | some created_at =>
          let conv_item : ConvItem :=
            .checkpointItem checkpoint.checkpoint_id created_at checkpoint.to_dict
          let conv_data' := { conv_data with items := conv_data.items ++ [conv_item] }
          let index0 := (dictLookup conversation_id s.item_index).getD []
          let index' := dictSet checkpoint.checkpoint_id conv_item index0
          (.ok conv_item,
           ⟨dictSet conversation_id conv_data' s.conversations,
            dictSet conversation_id index' s.item_index⟩)

/-- The per-message conversion loop of `list_items`: one thread message at
index `i` yields up to one `Message` item (derived id `item_<i>`), then its
function-call items, then its function-result items. -/
def convertThreadMessage (i : Nat) (msg : ChatMessage) : List ConvItem :=
  let item_id := "item_" ++ toString i
  let message_contents : List ItemContent := msg.contents.filterMap fun c =>
    match c with
    | .text t => some (.textContent t)
    | .data uri mediaType =>
        match mediaType with
        | some m =>
            if m ≠ "" ∧ m.startsWith "image/" then some (.inputImage uri)
            else some (.inputFile uri (if m = "application/pdf" then some "document.pdf" else none))
        | none => some (.inputFile uri none)
    | _ => none
  let function_calls : List ConvItem := msg.contents.filterMap fun c =>
    match c with
    | .functionCall callId name arguments =>
        match callId with
        | some cid =>
            if cid ≠ "" ∧ name ≠ "" then
              some (.functionCallItem (item_id ++ "_call_" ++ cid) cid name arguments)
            else none
        | none => none
    | _ => none
  let function_results : List ConvItem := msg.contents.filterMap fun c =>
    match c with
    | .functionResult callId output =>
        match callId with
        | some cid =>
            if cid ≠ "" then
              some (.functionOutputItem (item_id ++ "_result_" ++ cid) cid output)
            else none
        | none => none
    | _ => none
  (if message_contents ≠ [] then
    [ConvItem.message item_id msg.role message_contents]
   else []) ++ function_calls ++ function_results

/-- The cursor scan of `list_items`: walk the sequence from the front until
(the Python loop accesses `item.id`, which raises on a checkpoint dict) an
item's id equals the cursor; `some i` means the page starts at `i`. -/
def findCursor (after : String) : List ConvItem → Nat → Except PyErr (Option Nat)
  | [], _ => .ok none
  | it :: rest, i => do
      let iid ← it.idAttr
      if iid = after then pure (some (i + 1)) else findCursor after rest (i + 1)

/-- `InMemoryConversationStore.list_items`. -/
def list_items (s : Store) (conversation_id : String) (limit : Nat := 100)
    (after : Option String := none) (order : String := "asc") :
    Except PyErr (List ConvItem × Bool) :=
  match dictLookup conversation_id s.conversations with
  | none => .error (.valueError ("Conversation " ++ conversation_id ++ " not found"))
  | some conv_data =>
      let threadItems := conv_data.thread.messages.enum.flatMap fun p =>
        convertThreadMessage p.1 p.2
      let items := threadItems ++ conv_data.items.filter ConvItem.isCheckpointDict
      let items := if order = "desc" then items.reverse else items
      do
        let start_idx ←
          if strTruthy after then
            (findCursor (after.getD "") items 0).map fun found => found.getD 0
          else pure 0
        let paginated_items := (items.drop start_idx).take limit
        let has_more := decide (items.length > start_idx + limit)
        pure (paginated_items, has_more)

/-- `InMemoryConversationStore.get_item` (O(1) via the item index). -/
def get_item (s : Store) (conversation_id : String) (item_id : String) :
    Option ConvItem :=
  match dictLookup conversation_id s.item_index with
  | none => none
  | some conv_items =>
      if conv_items = [] then none else dictLookup item_id conv_items

/-- `InMemoryConversationStore.get_thread`. -/
def get_thread (s : Store) (conversation_id : String) : Option AgentThread :=
  (dictLookup conversation_id s.conversations).map fun conv_data => conv_data.thread

/-- `InMemoryConversationStore.list_conversations_by_metadata`. -/
def list_conversations_by_metadata (s : Store)
    (metadata_filter : List (String × String)) : List Conversation :=
  s.conversations.filterMap fun p =>
    if metadata_filter.all (fun kv => dictLookup kv.1 p.2.metadata = some kv.2) then
      some ⟨p.2.id, p.2.created_at, some p.2.metadata⟩
    else none

/-- The state of a `CheckpointConversationManager`: the backing store plus
the `entity_id → conversation_id` cache. -/
structure CheckpointManager where
  store : Store
  cache : List (String × String)
  deriving DecidableEq, Repr

/-- The metadata filter used to look up an entity's checkpoint container. -/
def checkpointFilter (entity_id : String) : List (String × String) :=
  [("entity_id", entity_id), ("type", CONVERSATION_TYPE_CHECKPOINT_CONTAINER)]

/-- The metadata a freshly created checkpoint container carries. -/
def checkpointContainerMetadata (entity_id : String) : List (String × String) :=
  [("entity_id", entity_id),
   ("type", CONVERSATION_TYPE_CHECKPOINT_CONTAINER),
   ("name", "Checkpoints for " ++ entity_id)]

/-- `CheckpointConversationManager.get_or_create_checkpoint_conversation`. -/
def get_or_create_checkpoint_conversation (m : CheckpointManager)
    (entity_id : String) (now : Int) : String × CheckpointManager :=
  match dictLookup entity_id m.cache with
  | some conv_id => (conv_id, m)
  | none =>
      match list_conversations_by_metadata m.store (checkpointFilter entity_id) with
      | conv :: _ =>
          (conv.id, { m with cache := dictSet entity_id conv.id m.cache })
      | [] =>
          let created := create_conversation m.store
            (some (checkpointContainerMetadata entity_id))
            (some ("checkpoints_" ++ entity_id)) "conv_unused" now
          (created.1.id,
           ⟨created.2, dictSet entity_id created.1.id m.cache⟩)

/-- `CheckpointConversationManager.save_checkpoint`. -/
def save_checkpoint (m : CheckpointManager) (entity_id : String)
    (checkpoint : WorkflowCheckpoint) (now : Int)
    (fromisoformat : String → Option Int) : Except PyErr String × CheckpointManager :=
  let resolved := get_or_create_checkpoint_conversation m entity_id now
  match add_checkpoint_item resolved.2.store resolved.1 checkpoint fromisoformat with
  | (.error e, s') => (.error e, { resolved.2 with store := s' })
  | (.ok _, s') => (.ok checkpoint.checkpoint_id, { resolved.2 with store := s' })

/-- `CheckpointConversationManager.load_checkpoint`. -/
def load_checkpoint (m : CheckpointManager) (entity_id : String)
    (checkpoint_id : String) (now : Int) :
    Option WorkflowCheckpoint × CheckpointManager :=
  let resolved := get_or_create_checkpoint_conversation m entity_id now
  match get_item resolved.2.store resolved.1 checkpoint_id with
  | none => (none, resolved.2)
  | some item =>
      match item with
      | .checkpointItem _ _ checkpoint_data =>
          (some (WorkflowCheckpoint.from_dict checkpoint_data), resolved.2)
      | _ => (none, resolved.2)

/-!  Execution pipeline (`_executor.py`).  The engine's `run_stream` call is
modelled by the list of updates it yields, plus an optional exception message
raised when the next update is pulled after that prefix.  The scoped trace
collector is modelled by `drains : Nat → List τ`: the batch that the `k`-th
call to `get_pending_events()` drains. -/

/-- One raw event of the merged output stream of `execute_entity`:
an engine update, a trace event, or the error dictionary
`{"type": "error", "message": ..., "entity_id"?: ...}`. -/
inductive StreamEvent (α τ : Type) where
  | update (u : α)
  | traceEv (t : τ)
  | errorEv (message : String) (entityId : Option String)
  deriving DecidableEq, Repr

/-- The driver loop shared by `_execute_agent` and `_execute_workflow`:
before yielding each engine update, drain and yield the pending trace
events; `k` counts the `get_pending_events()` calls already made. -/
def driveLoop (drains : Nat → List τ) : Nat → List α → List (StreamEvent α τ)
  | _, [] => []
  | k, u :: rest =>
      (drains k).map .traceEv ++ (.update u :: driveLoop drains (k + 1) rest)

/-- `AgentFrameworkExecutor._execute_agent`: the driver loop, and on an engine
exception a single error event `{"type": "error", "message": "Agent execution
error: ..."}` (no `entity_id` key, modelled as `none`). -/
def execute_agent (drains : Nat → List τ) (updates : List α)
    (exc : Option String) : List (StreamEvent α τ) :=
  driveLoop drains 0 updates ++
    match exc with
    | none => []
    | some msg => [.errorEv ("Agent execution error: " ++ msg) none]

/-- `AgentFrameworkExecutor._execute_workflow`: identical structure, with the
message prefix `"Workflow execution error: "`. -/
def execute_workflow (drains : Nat → List τ) (updates : List α)
    (exc : Option String) : List (StreamEvent α τ) :=
  driveLoop drains 0 updates ++
    match exc with
    | none => []
    | some msg => [.errorEv ("Workflow execution error: " ++ msg) none]

/-- What entity discovery knows about an entity id: `EntityInfo.type` and
whether `get_entity_object` returns a (truthy) object. -/
structure EntityRecord where
  kind : String
  hasObject : Bool
  deriving DecidableEq, Repr

/-- `AgentFrameworkExecutor.execute_entity`: validate the entity, delegate to
the driver, then flush the remaining trace events; every exception raised up
to that point is caught and converted into one error event carrying the
entity id. -/
def execute_entity (discovery : String → Option EntityRecord) (entity_id : String)
    (drains : Nat → List τ) (updates : List α) (exc : Option String) :
    List (StreamEvent α τ) :=
  match discovery entity_id with
  | none => [.errorEv ("Entity '" ++ entity_id ++ "' not found") (some entity_id)]
  | some info =>
      if !info.hasObject then
        [.errorEv ("Entity object for '" ++ entity_id ++ "' not found") (some entity_id)]
      else if info.kind = "agent" then
        execute_agent drains updates exc ++ (drains updates.length).map .traceEv
      else if info.kind = "workflow" then
        execute_workflow drains updates exc ++ (drains updates.length).map .traceEv
      else
        [.errorEv ("Unsupported entity type: " ++ info.kind) (some entity_id)]

/-- `AgentFrameworkExecutor.execute_streaming`: returns (an empty stream)
when the request carries no entity id or the entity id is unknown to
discovery; otherwise maps every raw `execute_entity` event through the
message mapper. -/
def execute_streaming (discovery : String → Option EntityRecord)
    (entity_id : Option String) (mapper : StreamEvent α τ → List β)
    (drains : Nat → List τ) (updates : List α) (exc : Option String) : List β :=
  if !strTruthy entity_id then []
  else
    let eid := entity_id.getD ""
    match discovery eid with
    | none => []
    | some _ => (execute_entity discovery eid drains updates exc).flatMap mapper

/-- Projection of the domain updates of a stream. -/
def StreamEvent.updateOf : StreamEvent α τ → Option α
  | .update u => some u
  | _ => none

/-- Projection of the trace events of a stream. -/
def StreamEvent.traceOf : StreamEvent α τ → Option τ
  | .traceEv t => some t
  | _ => none

/-- Whether an event is the error dictionary. -/
def StreamEvent.isErrorEv : StreamEvent α τ → Bool
  | .errorEv _ _ => true
  | _ => false

/-! Dictionary lemmas. -/

theorem dictLookup_dictSet_self (k : String) (v : α) (l : List (String × α)) :
    dictLookup k (dictSet k v l) = some v := by
  induction l with
  | nil => simp [dictSet, dictLookup]
  | cons p rest ih =>
      by_cases h : p.1 = k
      · simp [dictSet, h, dictLookup]
      · simp [dictSet, h, dictLookup, ih]

theorem dictLookup_dictSet_ne (k k' : String) (v : α) (l : List (String × α))
    (h : k' ≠ k) : dictLookup k' (dictSet k v l) = dictLookup k' l := by
  have hne : ¬k = k' := fun hh => h hh.symm
  induction l with
  | nil => simp [dictSet, dictLookup, hne]
  | cons p rest ih =>
      by_cases hp : p.1 = k
      · simp [dictSet, hp, dictLookup, hne]
      · simp [dictSet, hp, dictLookup, ih]

theorem dictLookup_dictErase_self (k : String) (l : List (String × α)) :
    dictLookup k (dictErase k l) = none := by
  induction l with
  | nil => simp [dictErase, dictLookup]
  | cons p rest ih =>
      by_cases hp : p.1 = k
      · simpa [dictErase, hp] using ih
      · simpa [dictErase, hp, dictLookup] using ih

theorem dictSet_ne_nil (k : String) (v : α) (l : List (String × α)) :
    dictSet k v l ≠ [] := by
  cases l with
  | nil => simp [dictSet]
  | cons p rest =>
      by_cases hp : p.1 = k <;> simp [dictSet, hp]

/-! Stream lemmas. -/

theorem enumFrom_shift (n : Nat) (l : List α) :
    List.enumFrom (n + 1) l = (List.enumFrom n l).map fun p => (p.1 + 1, p.2) := by
  induction l generalizing n with
  | nil => rfl
  | cons a rest ih => simp [List.enumFrom, ih (n + 1)]

theorem driveLoop_eq_enum (drains : Nat → List τ) (k : Nat) (updates : List α) :
    driveLoop drains k updates =
      updates.enum.flatMap fun p =>
        (drains (k + p.1)).map .traceEv ++ [.update p.2] := by
  induction updates generalizing k with
  | nil => simp [driveLoop]
  | cons u rest ih =>
      have h1 : List.enumFrom 1 rest = rest.enum.map fun p => (p.1 + 1, p.2) :=
        enumFrom_shift 0 rest
      simp only [driveLoop, List.enum_cons, List.flatMap_cons, ih (k + 1), h1,
        List.flatMap_map]
      simp [Nat.add_assoc, Nat.add_comm 1]

theorem driveLoop_filterMap_update (drains : Nat → List τ) (k : Nat)
    (updates : List α) :
    (driveLoop drains k updates).filterMap StreamEvent.updateOf = updates := by
  induction updates generalizing k with
  | nil => simp [driveLoop]
  | cons u rest ih =>
      simp [driveLoop, List.filterMap_append, List.filterMap_map,
        StreamEvent.updateOf, Function.comp, ih (k + 1)]

theorem driveLoop_filterMap_trace (drains : Nat → List τ) (k : Nat)
    (updates : List α) :
    (driveLoop drains k updates).filterMap StreamEvent.traceOf =
      (List.range updates.length).flatMap fun i => drains (k + i) := by
  induction updates generalizing k with
  | nil => simp [driveLoop]
  | cons u rest ih =>
      simp only [driveLoop, List.filterMap_append, List.filterMap_cons,
        List.filterMap_map, List.length_cons, List.range_succ_eq_map,
        List.flatMap_cons, List.flatMap_map]
      have h2 : (@StreamEvent.traceOf α τ ∘ @StreamEvent.traceEv α τ) = some := rfl
      rw [h2, List.filterMap_some]
      simp [StreamEvent.traceOf, ih (k + 1), Nat.add_assoc, Nat.add_comm 1]

theorem driveLoop_countP_error (drains : Nat → List τ) (k : Nat)
    (updates : List α) :
    (driveLoop drains k updates).countP (fun ev => StreamEvent.isErrorEv ev) = 0 := by
  induction updates generalizing k with
  | nil => simp [driveLoop]
  | cons u rest ih =>
      have h1 : ((fun ev => StreamEvent.isErrorEv ev) ∘ @StreamEvent.traceEv α τ) =
          fun _ => false := rfl
      simp only [driveLoop, List.countP_append, List.countP_cons, List.countP_map, h1,
        ih (k + 1)]
      simp [StreamEvent.isErrorEv, List.countP_false]

/-! Claim theorems. -/

/-- C1: the claim fails on the code.  In a fresh conversation `conv_A`, one
`add_items` call adds the single user item `hello` and returns it under its
generated uuid-based id (modelled as `item_abc`); `get_item` finds that item
via the index, but `list_items(order=asc)` re-derives the listing from the
thread history with positional ids, so the listing's only item carries the id
`item_0`: no item of the ascending listing has the id returned by
`add_items`, and the item at the corresponding position differs from the
`get_item` result in its id. -/
theorem add_items_ids_diverge_from_list_items :
    (add_items (create_conversation Store.empty none (some "conv_A") "g" 0).2 "conv_A"
        [⟨some "user", [⟨some "hello"⟩]⟩] fun _ => "item_abc").1 =
      .ok [.message "item_abc" "user" [.textContent "hello"]] ∧
    get_item (add_items (create_conversation Store.empty none (some "conv_A") "g" 0).2
        "conv_A" [⟨some "user", [⟨some "hello"⟩]⟩] fun _ => "item_abc").2
      "conv_A" "item_abc" =
      some (.message "item_abc" "user" [.textContent "hello"]) ∧
    list_items (add_items (create_conversation Store.empty none (some "conv_A") "g" 0).2
        "conv_A" [⟨some "user", [⟨some "hello"⟩]⟩] fun _ => "item_abc").2
      "conv_A" 100 none "asc" =
      .ok ([.message "item_0" "user" [.textContent "hello"]], false) ∧
    (∀ it ∈ [ConvItem.message "item_0" "user" [.textContent "hello"]],
      it.idKey ≠ "item_abc") := by
  exact ⟨rfl, rfl, rfl, by decide⟩

/-- C2: the claim fails on the code.  In a conversation holding one checkpoint
item (stored as a plain dictionary), `list_items` with any cursor value
raises `AttributeError` because the cursor scan accesses `item.id` on the
dictionary; without a cursor the same call returns normally. -/
theorem list_items_cursor_raises_on_checkpoint_item :
    get_conversation (add_checkpoint_item
        (create_conversation Store.empty (some (checkpointContainerMetadata "wf1"))
          (some "checkpoints_wf1") "g" 0).2 "checkpoints_wf1"
        ⟨"cp1", "wf1", "t", [("k", "v")]⟩ fun _ => some 5).2
      "checkpoints_wf1" ≠ none ∧
    list_items (add_checkpoint_item
        (create_conversation Store.empty (some (checkpointContainerMetadata "wf1"))
          (some "checkpoints_wf1") "g" 0).2 "checkpoints_wf1"
        ⟨"cp1", "wf1", "t", [("k", "v")]⟩ fun _ => some 5).2
      "checkpoints_wf1" 10 (some "cp1") "asc" =
      .error (.attributeError "dict object has no attribute id") ∧
    list_items (add_checkpoint_item
        (create_conversation Store.empty (some (checkpointContainerMetadata "wf1"))
          (some "checkpoints_wf1") "g" 0).2 "checkpoints_wf1"
        ⟨"cp1", "wf1", "t", [("k", "v")]⟩ fun _ => some 5).2
      "checkpoints_wf1" 10 none "asc" =
      .ok ([.checkpointItem "cp1" 5 ⟨"cp1", "wf1", "t", [("k", "v")]⟩], false) := by
  exact ⟨by decide, rfl, rfl⟩

/-- C7: after `delete_conversation` succeeds on conversation `cid`,
`get_conversation cid` returns absent and `get_item cid i` returns absent for
every item id `i` (the conversation and its item-index entry are removed as
one unit). -/
theorem delete_conversation_purges (s : Store) (cid : String) (cd : ConvData)
    (h : dictLookup cid s.conversations = some cd) :
    (delete_conversation s cid).1 = .ok ⟨cid, true⟩ ∧
    get_conversation (delete_conversation s cid).2 cid = none ∧
    ∀ item_id, get_item (delete_conversation s cid).2 cid item_id = none := by
  refine ⟨?_, ?_, ?_⟩ <;>
    simp [delete_conversation, h, get_conversation, get_item, dictLookup_dictErase_self]

/-- Witness for C7 at a concrete one-conversation store. -/
theorem delete_conversation_purges_witness :
    dictLookup "c" (⟨[("c", ⟨"c", ⟨[]⟩, [], 0, []⟩)], [("c", [])]⟩ : Store).conversations =
      some ⟨"c", ⟨[]⟩, [], 0, []⟩ ∧
    (delete_conversation ⟨[("c", ⟨"c", ⟨[]⟩, [], 0, []⟩)], [("c", [])]⟩ "c").1 =
      .ok ⟨"c", true⟩ ∧
    get_item (delete_conversation ⟨[("c", ⟨"c", ⟨[]⟩, [], 0, []⟩)], [("c", [])]⟩ "c").2
      "c" "item_0" = none := by
  have h := delete_conversation_purges
    ⟨[("c", ⟨"c", ⟨[]⟩, [], 0, []⟩)], [("c", [])]⟩ "c" ⟨"c", ⟨[]⟩, [], 0, []⟩ (by decide)
  exact ⟨by decide, h.1, h.2.2 "item_0"⟩

/-- C8: `create_conversation` with an explicit id `x` that is already in use
does not fail: it silently replaces the prior conversation, leaving the new
metadata, a fresh (empty) thread, an empty cached item list, and an empty
item-index entry, so none of the prior conversation's items or thread state
remains reachable under `x`. -/
theorem create_conversation_overwrites (s : Store) (x gen : String)
    (md : Option (List (String × String))) (now : Int) (old : ConvData)
    (hx : x ≠ "") (h : dictLookup x s.conversations = some old) :
    (create_conversation s md (some x) gen now).1.id = x ∧
    dictLookup x (create_conversation s md (some x) gen now).2.conversations =
      some ⟨x, ⟨[]⟩, md.getD [], now, []⟩ ∧
    dictLookup x (create_conversation s md (some x) gen now).2.item_index = some [] ∧
    get_thread (create_conversation s md (some x) gen now).2 x = some ⟨[]⟩ ∧
    ∀ item_id, get_item (create_conversation s md (some x) gen now).2 x item_id = none := by
  have ht : strTruthy (some x) = true := by simp [strTruthy, hx]
  refine ⟨?_, ?_, ?_, ?_, ?_⟩ <;>
    simp [create_conversation, ht, get_thread, get_item, dictLookup_dictSet_self]

/-- Witness for C8: overwrite a conversation that already has an item. -/
theorem create_conversation_overwrites_witness :
    ("x" : String) ≠ "" ∧
    dictLookup "x"
      (⟨[("x", ⟨"x", ⟨[⟨"user", [.text "old"]⟩]⟩, [("a", "b")], 1,
          [.message "i1" "user" [.textContent "old"]]⟩)],
        [("x", [("i1", .message "i1" "user" [.textContent "old"])])]⟩ :
        Store).conversations =
      some ⟨"x", ⟨[⟨"user", [.text "old"]⟩]⟩, [("a", "b")], 1,
        [.message "i1" "user" [.textContent "old"]]⟩ ∧
    get_item (create_conversation
      (⟨[("x", ⟨"x", ⟨[⟨"user", [.text "old"]⟩]⟩, [("a", "b")], 1,
          [.message "i1" "user" [.textContent "old"]]⟩)],
        [("x", [("i1", .message "i1" "user" [.textContent "old"])])]⟩ : Store)
      (some [("c", "d")]) (some "x") "g" 2).2 "x" "i1" = none := by
  have h := create_conversation_overwrites
    (⟨[("x", ⟨"x", ⟨[⟨"user", [.text "old"]⟩]⟩, [("a", "b")], 1,
        [.message "i1" "user" [.textContent "old"]]⟩)],
      [("x", [("i1", .message "i1" "user" [.textContent "old"])])]⟩ : Store)
    "x" "g" (some [("c", "d")]) 2
    ⟨"x", ⟨[⟨"user", [.text "old"]⟩]⟩, [("a", "b")], 1,
      [.message "i1" "user" [.textContent "old"]]⟩
    (by decide) (by decide)
  exact ⟨by decide, by decide, h.2.2.2.2 "i1"⟩

/-- C10: on a conversation id absent from the store, each of
`update_conversation`, `delete_conversation`, `add_items`, and
`add_checkpoint_item` raises a not-found `ValueError` and leaves the whole
store state (conversations map and item index) unchanged. -/
theorem mutations_on_absent_conversation_unchanged (s : Store) (cid : String)
    (md : List (String × String)) (items : List RawItem) (freshIds : Nat → String)
    (cp : WorkflowCheckpoint) (fiso : String → Option Int)
    (h : dictLookup cid s.conversations = none) :
    update_conversation s cid md =
      (.error (.valueError ("Conversation " ++ cid ++ " not found")), s) ∧
    delete_conversation s cid =
      (.error (.valueError ("Conversation " ++ cid ++ " not found")), s) ∧
    add_items s cid items freshIds =
      (.error (.valueError ("Conversation " ++ cid ++ " not found")), s) ∧
    add_checkpoint_item s cid cp fiso =
      (.error (.valueError ("Conversation " ++ cid ++ " not found")), s) := by
  refine ⟨?_, ?_, ?_, ?_⟩ <;>
    simp only [update_conversation, delete_conversation, add_items, add_checkpoint_item, h]

/-- Witness for C10 at a concrete store and absent id. -/
theorem mutations_on_absent_conversation_unchanged_witness :
    dictLookup "ghost"
      (⟨[("c", ⟨"c", ⟨[]⟩, [], 0, []⟩)], [("c", [])]⟩ : Store).conversations = none ∧
    update_conversation ⟨[("c", ⟨"c", ⟨[]⟩, [], 0, []⟩)], [("c", [])]⟩ "ghost" [] =
      (.error (.valueError ("Conversation " ++ "ghost" ++ " not found")),
       ⟨[("c", ⟨"c", ⟨[]⟩, [], 0, []⟩)], [("c", [])]⟩) := by
  have h := mutations_on_absent_conversation_unchanged
    ⟨[("c", ⟨"c", ⟨[]⟩, [], 0, []⟩)], [("c", [])]⟩ "ghost" [] [] (fun _ => "i")
    ⟨"cp", "wf", "t", []⟩ (fun _ => some 0) (by decide)
  exact ⟨by decide, h.1⟩

theorem checkpoints_prefix_ne_empty (e : String) : ("checkpoints_" ++ e) ≠ "" := by
  intro h
  have h2 := congrArg String.length h
  rw [String.length_append] at h2
  have h3 : ("checkpoints_" : String).length = 12 := rfl
  have h4 : ("" : String).length = 0 := rfl
  omega

theorem filterMap_dictSet_of_forall_none {α β : Type} (f : String × α → Option β)
    (k : String) (v : α) (l : List (String × α))
    (hl : ∀ p ∈ l, f p = none) :
    (dictSet k v l).filterMap f = (f (k, v)).toList := by
  induction l with
  | nil => cases hf : f (k, v) <;> simp [dictSet, hf]
  | cons p rest ih =>
      have hrest : ∀ q ∈ rest, f q = none := fun q hq => hl q (List.mem_cons_of_mem _ hq)
      have hnil : rest.filterMap f = [] := List.filterMap_eq_nil_iff.mpr hrest
      by_cases hp : p.1 = k
      · cases hf : f (k, v) <;> simp [dictSet, hp, hf, hnil]
      · have hpf : f p = none := hl p (List.mem_cons_self p rest)
        simp [dictSet, hp, hpf, ih hrest]

/-- C5: for a previously-unseen entity id (not cached and with no
checkpoint-container conversation in the store), two sequential calls of
`get_or_create_checkpoint_conversation` return the same conversation id
(`checkpoints_<entity>`), and exactly one conversation in the resulting
store carries the checkpoint-container metadata for that entity. -/
theorem checkpoint_container_idempotent (m : CheckpointManager) (e : String)
    (now1 now2 : Int)
    (h1 : dictLookup e m.cache = none)
    (h2 : list_conversations_by_metadata m.store (checkpointFilter e) = []) :
    (get_or_create_checkpoint_conversation m e now1).1 = "checkpoints_" ++ e ∧
    (get_or_create_checkpoint_conversation
        (get_or_create_checkpoint_conversation m e now1).2 e now2).1 =
      (get_or_create_checkpoint_conversation m e now1).1 ∧
    (list_conversations_by_metadata
        (get_or_create_checkpoint_conversation
          (get_or_create_checkpoint_conversation m e now1).2 e now2).2.store
        (checkpointFilter e)).length = 1 := by
  have hT : strTruthy (some ("checkpoints_" ++ e)) = true := by
    simp [strTruthy, checkpoints_prefix_ne_empty e]
  have hr1 : get_or_create_checkpoint_conversation m e now1 =
      ("checkpoints_" ++ e,
       ⟨⟨dictSet ("checkpoints_" ++ e)
           ⟨"checkpoints_" ++ e, ⟨[]⟩, checkpointContainerMetadata e, now1, []⟩
           m.store.conversations,
         dictSet ("checkpoints_" ++ e) [] m.store.item_index⟩,
        dictSet e ("checkpoints_" ++ e) m.cache⟩) := by
    simp only [get_or_create_checkpoint_conversation, h1, h2, create_conversation, hT,
      if_pos, Option.getD_some]
  have hr2 : get_or_create_checkpoint_conversation
      (get_or_create_checkpoint_conversation m e now1).2 e now2 =
      ("checkpoints_" ++ e, (get_or_create_checkpoint_conversation m e now1).2) := by
    rw [hr1]
    simp only [get_or_create_checkpoint_conversation, dictLookup_dictSet_self]
  refine ⟨by rw [hr1], by rw [hr2, hr1], ?_⟩
  rw [hr2, hr1]
  have hl : ∀ p ∈ m.store.conversations,
      (fun p : String × ConvData =>
        if (checkpointFilter e).all (fun kv => dictLookup kv.1 p.2.metadata = some kv.2) then
          some (⟨p.2.id, p.2.created_at, some p.2.metadata⟩ : Conversation)
        else none) p = none := by
    intro p hp
    exact List.filterMap_eq_nil_iff.mp h2 p hp
  show ((dictSet ("checkpoints_" ++ e) _ m.store.conversations).filterMap _).length = 1
  rw [filterMap_dictSet_of_forall_none _ _ _ _ hl]
  simp [checkpointFilter, checkpointContainerMetadata, dictLookup,
    CONVERSATION_TYPE_CHECKPOINT_CONTAINER]

/-- Witness for C5: a fresh manager over the empty store. -/
theorem checkpoint_container_idempotent_witness :
    dictLookup "wf1" (⟨Store.empty, []⟩ : CheckpointManager).cache = none ∧
    list_conversations_by_metadata (⟨Store.empty, []⟩ : CheckpointManager).store
      (checkpointFilter "wf1") = [] ∧
    (get_or_create_checkpoint_conversation ⟨Store.empty, []⟩ "wf1" 3).1 =
      "checkpoints_" ++ "wf1" ∧
    (list_conversations_by_metadata
        (get_or_create_checkpoint_conversation
          (get_or_create_checkpoint_conversation ⟨Store.empty, []⟩ "wf1" 3).2
          "wf1" 4).2.store
        (checkpointFilter "wf1")).length = 1 := by
  have h := checkpoint_container_idempotent ⟨Store.empty, []⟩ "wf1" 3 4 (by rfl) (by rfl)
  exact ⟨rfl, rfl, h.1, h.2.2⟩

theorem cache_after_get_or_create (m : CheckpointManager) (e : String) (now : Int) :
    dictLookup e (get_or_create_checkpoint_conversation m e now).2.cache =
      some (get_or_create_checkpoint_conversation m e now).1 := by
  cases hc : dictLookup e m.cache with
  | some cid => simp [get_or_create_checkpoint_conversation, hc]
  | none =>
      cases hlst : list_conversations_by_metadata m.store (checkpointFilter e) with
      | cons conv rest =>
          simp [get_or_create_checkpoint_conversation, hc, hlst, dictLookup_dictSet_self]
      | nil =>
          simp [get_or_create_checkpoint_conversation, hc, hlst, dictLookup_dictSet_self]

/-- C6: `save_checkpoint` followed by `load_checkpoint` with the saved
checkpoint's id returns a checkpoint equal to the original in its
`checkpoint_id`, `workflow_id`, and `shared_state` fields (given that the
checkpoint's timestamp parses and the resolved container conversation exists
in the store, which `get_or_create_checkpoint_conversation` guarantees for
entities resolved through the public flow). -/
theorem checkpoint_roundtrip (m : CheckpointManager) (e : String)
    (cp : WorkflowCheckpoint) (now1 now2 : Int) (fiso : String → Option Int)
    (t : Int) (hts : fiso cp.timestamp = some t) (cd : ConvData)
    (cid1 : String) (m1 : CheckpointManager)
    (hres : get_or_create_checkpoint_conversation m e now1 = (cid1, m1))
    (hconv : dictLookup cid1 m1.store.conversations = some cd) :
    (save_checkpoint m e cp now1 fiso).1 = .ok cp.checkpoint_id ∧
    ((load_checkpoint (save_checkpoint m e cp now1 fiso).2 e cp.checkpoint_id now2).1.map
        fun loaded => (loaded.checkpoint_id, loaded.workflow_id, loaded.shared_state)) =
      some (cp.checkpoint_id, cp.workflow_id, cp.shared_state) := by
  have hcache := cache_after_get_or_create m e now1
  rw [hres] at hcache
  have hadd : add_checkpoint_item m1.store cid1 cp fiso =
      (.ok (ConvItem.checkpointItem cp.checkpoint_id t cp.to_dict),
       ⟨dictSet cid1
          { cd with items := cd.items ++
              [ConvItem.checkpointItem cp.checkpoint_id t cp.to_dict] }
          m1.store.conversations,
        dictSet cid1
          (dictSet cp.checkpoint_id
            (ConvItem.checkpointItem cp.checkpoint_id t cp.to_dict)
            ((dictLookup cid1 m1.store.item_index).getD []))
          m1.store.item_index⟩) := by
    simp only [add_checkpoint_item, hconv, hts]
  have hsave : save_checkpoint m e cp now1 fiso =
      (.ok cp.checkpoint_id,
       { m1 with store :=
          ⟨dictSet cid1
             { cd with items := cd.items ++
                 [ConvItem.checkpointItem cp.checkpoint_id t cp.to_dict] }
             m1.store.conversations,
           dictSet cid1
             (dictSet cp.checkpoint_id
               (ConvItem.checkpointItem cp.checkpoint_id t cp.to_dict)
               ((dictLookup cid1 m1.store.item_index).getD []))
             m1.store.item_index⟩ }) := by
    simp only [save_checkpoint, hres, hadd]
  refine ⟨by rw [hsave], ?_⟩
  rw [hsave]
  have hc2 : dictLookup e
      ({ m1 with store :=
          ⟨dictSet cid1
             { cd with items := cd.items ++
                 [ConvItem.checkpointItem cp.checkpoint_id t cp.to_dict] }
             m1.store.conversations,
           dictSet cid1
             (dictSet cp.checkpoint_id
               (ConvItem.checkpointItem cp.checkpoint_id t cp.to_dict)
               ((dictLookup cid1 m1.store.item_index).getD []))
             m1.store.item_index⟩ } : CheckpointManager).cache = some cid1 := hcache
  simp only [load_checkpoint, get_or_create_checkpoint_conversation, hc2]
  simp only [get_item, dictLookup_dictSet_self]
  rw [if_neg (dictSet_ne_nil cp.checkpoint_id
    (ConvItem.checkpointItem cp.checkpoint_id t cp.to_dict) _)]
  simp only [dictLookup_dictSet_self]
  rfl

/-- Witness for C6: saving and loading a concrete checkpoint through a fresh
manager over the empty store. -/
theorem checkpoint_roundtrip_witness :
    (fun _ : String => some (5 : Int)) ("2024-01-01T00:00:00") = some 5 ∧
    get_or_create_checkpoint_conversation ⟨Store.empty, []⟩ "wf1" 3 =
      ("checkpoints_wf1",
       ⟨⟨[("checkpoints_wf1",
            ⟨"checkpoints_wf1", ⟨[]⟩, checkpointContainerMetadata "wf1", 3, []⟩)],
          [("checkpoints_wf1", [])]⟩,
        [("wf1", "checkpoints_wf1")]⟩) ∧
    (save_checkpoint ⟨Store.empty, []⟩ "wf1"
        ⟨"cp1", "wf1", "2024-01-01T00:00:00", [("k", "v")]⟩ 3
        (fun _ => some 5)).1 = .ok "cp1" ∧
    ((load_checkpoint
        (save_checkpoint ⟨Store.empty, []⟩ "wf1"
          ⟨"cp1", "wf1", "2024-01-01T00:00:00", [("k", "v")]⟩ 3
          (fun _ => some 5)).2 "wf1" "cp1" 9).1.map
        fun loaded => (loaded.checkpoint_id, loaded.workflow_id, loaded.shared_state)) =
      some ("cp1", "wf1", [("k", "v")]) := by
  have h := checkpoint_roundtrip ⟨Store.empty, []⟩ "wf1"
    ⟨"cp1", "wf1", "2024-01-01T00:00:00", [("k", "v")]⟩ 3 9 (fun _ => some 5) 5 rfl
    ⟨"checkpoints_wf1", ⟨[]⟩, checkpointContainerMetadata "wf1", 3, []⟩
    "checkpoints_wf1"
    ⟨⟨[("checkpoints_wf1",
         ⟨"checkpoints_wf1", ⟨[]⟩, checkpointContainerMetadata "wf1", 3, []⟩)],
       [("checkpoints_wf1", [])]⟩,
      [("wf1", "checkpoints_wf1")]⟩
    (by rfl) (by rfl)
  exact ⟨rfl, by rfl, h.1, h.2⟩

/-- C3 counterexample: for a request whose entity id is unknown to discovery,
the public streaming execution (`execute_streaming`) ends its stream without
yielding any event at all — zero events, not one terminal error event. -/
theorem execute_streaming_unknown_entity_yields_no_events :
    execute_streaming (fun _ => none) (some "ghost")
      (fun ev : StreamEvent Nat Nat => [ev]) (fun _ => []) [] none = [] ∧
    (execute_streaming (fun _ => none) (some "ghost")
      (fun ev : StreamEvent Nat Nat => [ev]) (fun _ => []) [] none).length ≠ 1 := by
  exact ⟨rfl, by decide⟩

/-- C3 (amended): for an execution request whose entity id is unknown to
entity discovery, `execute_entity` yields exactly one terminal error event
(carrying the entity id) and no domain events; the outer `execute_streaming`,
which pre-validates the entity id and returns early, yields no events at
all. -/
theorem unknown_entity_single_error_event {α τ β : Type}
    (discovery : String → Option EntityRecord) (e : String)
    (mapper : StreamEvent α τ → List β) (drains : Nat → List τ)
    (updates : List α) (exc : Option String) (h : discovery e = none) :
    execute_entity discovery e drains updates exc =
      [.errorEv ("Entity '" ++ e ++ "' not found") (some e)] ∧
    execute_streaming discovery (some e) mapper drains updates exc = [] := by
  constructor
  · simp [execute_entity, h]
  · by_cases he : e = ""
    · subst he
      simp [execute_streaming, strTruthy]
    · simp [execute_streaming, strTruthy, he, h]

/-- Witness for C3 (amended) at a discovery function knowing no entities. -/
theorem unknown_entity_single_error_event_witness :
    ((fun _ : String => (none : Option EntityRecord)) "ghost" = none) ∧
    execute_entity (fun _ => none) "ghost" (fun _ => ([] : List Nat))
        ([] : List Nat) none =
      [.errorEv ("Entity '" ++ "ghost" ++ "' not found") (some "ghost")] ∧
    execute_streaming (fun _ => none) (some "ghost")
      (fun ev : StreamEvent Nat Nat => [ev]) (fun _ => []) [] none = [] := by
  have h := unknown_entity_single_error_event (fun _ => none) "ghost"
    (fun ev : StreamEvent Nat Nat => [ev]) (fun _ => []) [] none rfl
  exact ⟨rfl, h.1, h.2⟩

/-- C4 counterexample: when the engine raises (here with no updates yielded
and one pending trace event), the error event carries no entity id (its
`entity_id` field is absent, modelled as `none`), and the stream does not end
with it — the final trace flush of `execute_entity` follows it. -/
theorem driver_error_event_lacks_entity_id :
    execute_entity (fun s => if s = "a" then some ⟨"agent", true⟩ else none) "a"
      (fun _ => [7]) ([] : List Nat) (some "boom") =
      [.errorEv ("Agent execution error: boom") none, .traceEv 7] := by
  rfl

/-- C4 (amended): an exception raised by the driven engine surfaces as exactly
one error event of shape `{type: "error", message}` — without an entity id —
emitted by the driver itself; after it, only the final flush of still-pending
trace events follows before the stream ends, and the exception is not
re-raised to the stream consumer (both for the agent and for the workflow
driver, whose error messages carry distinct prefixes). -/
theorem driver_exception_terminal_error {α τ : Type}
    (d : String → Option EntityRecord) (ea ew : String)
    (drains : Nat → List τ) (updates : List α) (msg : String)
    (h1 : d ea = some ⟨"agent", true⟩) (h2 : d ew = some ⟨"workflow", true⟩) :
    execute_entity d ea drains updates (some msg) =
      driveLoop drains 0 updates ++
        .errorEv ("Agent execution error: " ++ msg) none ::
          (drains updates.length).map .traceEv ∧
    execute_entity d ew drains updates (some msg) =
      driveLoop drains 0 updates ++
        .errorEv ("Workflow execution error: " ++ msg) none ::
          (drains updates.length).map .traceEv ∧
    (execute_entity d ea drains updates (some msg)).countP
      (fun ev => StreamEvent.isErrorEv ev) = 1 ∧
    (execute_entity d ew drains updates (some msg)).countP
      (fun ev => StreamEvent.isErrorEv ev) = 1 := by
  have hz : ∀ l : List τ,
      (l.map (@StreamEvent.traceEv α τ)).countP (fun ev => StreamEvent.isErrorEv ev) = 0 := by
    intro l
    induction l with
    | nil => rfl
    | cons a r ih => simp [List.countP_cons, StreamEvent.isErrorEv, ih]
  have hea : execute_entity d ea drains updates (some msg) =
      driveLoop drains 0 updates ++
        .errorEv ("Agent execution error: " ++ msg) none ::
          (drains updates.length).map .traceEv := by
    simp [execute_entity, h1, execute_agent]
  have hew : execute_entity d ew drains updates (some msg) =
      driveLoop drains 0 updates ++
        .errorEv ("Workflow execution error: " ++ msg) none ::
          (drains updates.length).map .traceEv := by
    simp [execute_entity, h2, execute_workflow]
  refine ⟨hea, hew, ?_, ?_⟩
  · rw [hea, List.countP_append, driveLoop_countP_error, List.countP_cons, hz]
    simp [StreamEvent.isErrorEv]
  · rw [hew, List.countP_append, driveLoop_countP_error, List.countP_cons, hz]
    simp [StreamEvent.isErrorEv]

/-- Witness for C4 (amended) at a concrete discovery with one agent and one
workflow, two engine updates, and per-call trace batches. -/
theorem driver_exception_terminal_error_witness :
    ((fun s => if s = "a" then some (⟨"agent", true⟩ : EntityRecord)
        else if s = "w" then some ⟨"workflow", true⟩ else none) "a" =
      some ⟨"agent", true⟩) ∧
    ((fun s => if s = "a" then some (⟨"agent", true⟩ : EntityRecord)
        else if s = "w" then some ⟨"workflow", true⟩ else none) "w" =
      some ⟨"workflow", true⟩) ∧
    (execute_entity
        (fun s => if s = "a" then some ⟨"agent", true⟩
          else if s = "w" then some ⟨"workflow", true⟩ else none) "a"
        (fun k => [100 + k]) ([1, 2] : List Nat) (some "boom")).countP
      (fun ev => StreamEvent.isErrorEv ev) = 1 := by
  have h := driver_exception_terminal_error
    (fun s => if s = "a" then some ⟨"agent", true⟩
      else if s = "w" then some ⟨"workflow", true⟩ else none) "a" "w"
    (fun k => [100 + k]) ([1, 2] : List Nat) "boom" rfl rfl
  exact ⟨rfl, rfl, h.2.2.1⟩

/-- C9: for an agent or workflow entity whose engine run terminates
normally, the output stream is exactly the interleaving in which the batch of
trace events drained at the `i`-th domain event is emitted immediately before
that event (hence every trace event pending when a domain event is emitted
strictly precedes it), the remaining pending batch is flushed at the end, the
projection of the stream onto domain events equals the engine's update
sequence, and the projection onto trace events is the concatenation of the
drained batches in arrival order — identically for both drivers. -/
theorem trace_interleaving_order {α τ : Type} (d : String → Option EntityRecord)
    (ea ew : String) (drains : Nat → List τ) (updates : List α)
    (h1 : d ea = some ⟨"agent", true⟩) (h2 : d ew = some ⟨"workflow", true⟩) :
    execute_entity d ea drains updates none =
      (updates.enum.flatMap fun p =>
        (drains p.1).map .traceEv ++ [.update p.2]) ++
        (drains updates.length).map .traceEv ∧
    execute_entity d ew drains updates none =
      (updates.enum.flatMap fun p =>
        (drains p.1).map .traceEv ++ [.update p.2]) ++
        (drains updates.length).map .traceEv ∧
    (execute_entity d ea drains updates none).filterMap StreamEvent.updateOf =
      updates ∧
    (execute_entity d ew drains updates none).filterMap StreamEvent.updateOf =
      updates ∧
    (execute_entity d ea drains updates none).filterMap StreamEvent.traceOf =
      (List.range (updates.length + 1)).flatMap drains ∧
    (execute_entity d ew drains updates none).filterMap StreamEvent.traceOf =
      (List.range (updates.length + 1)).flatMap drains := by
  have hma : execute_entity d ea drains updates none =
      driveLoop drains 0 updates ++ (drains updates.length).map .traceEv := by
    simp [execute_entity, h1, execute_agent]
  have hmw : execute_entity d ew drains updates none =
      driveLoop drains 0 updates ++ (drains updates.length).map .traceEv := by
    simp [execute_entity, h2, execute_workflow]
  have henum : driveLoop drains 0 updates ++
      (drains updates.length).map (@StreamEvent.traceEv α τ) =
      (updates.enum.flatMap fun p =>
        (drains p.1).map .traceEv ++ [.update p.2]) ++
        (drains updates.length).map (@StreamEvent.traceEv α τ) := by
    rw [driveLoop_eq_enum]
    simp
  have hupd : (driveLoop drains 0 updates ++
      (drains updates.length).map (@StreamEvent.traceEv α τ)).filterMap
      StreamEvent.updateOf = updates := by
    rw [List.filterMap_append, driveLoop_filterMap_update]
    have hnil : (List.filterMap StreamEvent.updateOf
        ((drains updates.length).map (@StreamEvent.traceEv α τ)) : List α) = [] := by
      simp [List.filterMap_map, Function.comp, StreamEvent.updateOf]
    rw [hnil, List.append_nil]
  have htr : (driveLoop drains 0 updates ++
      (drains updates.length).map (@StreamEvent.traceEv α τ)).filterMap
      StreamEvent.traceOf = (List.range (updates.length + 1)).flatMap drains := by
    rw [List.filterMap_append, driveLoop_filterMap_trace]
    have hcomp : (@StreamEvent.traceOf α τ ∘ @StreamEvent.traceEv α τ) = some := rfl
    rw [List.filterMap_map, hcomp, List.filterMap_some, List.range_succ,
      List.flatMap_append]
    simp
  refine ⟨?_, ?_, ?_, ?_, ?_, ?_⟩
  · rw [hma]; exact henum
  · rw [hmw]; exact henum
  · rw [hma]; exact hupd
  · rw [hmw]; exact hupd
  · rw [hma]; exact htr
  · rw [hmw]; exact htr

/-- Witness for C9 at a concrete discovery with one agent and one workflow,
two engine updates, and per-call trace batches. -/
theorem trace_interleaving_order_witness :
    ((fun s => if s = "a" then some (⟨"agent", true⟩ : EntityRecord)
        else if s = "w" then some ⟨"workflow", true⟩ else none) "a" =
      some ⟨"agent", true⟩) ∧
    ((fun s => if s = "a" then some (⟨"agent", true⟩ : EntityRecord)
        else if s = "w" then some ⟨"workflow", true⟩ else none) "w" =
      some ⟨"workflow", true⟩) ∧
    (execute_entity
        (fun s => if s = "a" then some ⟨"agent", true⟩
          else if s = "w" then some ⟨"workflow", true⟩ else none) "a"
        (fun k => [100 + k]) ([1, 2] : List Nat) none).filterMap
      StreamEvent.updateOf = [1, 2] ∧
    (execute_entity
        (fun s => if s = "a" then some ⟨"agent", true⟩
          else if s = "w" then some ⟨"workflow", true⟩ else none) "w"
        (fun k => [100 + k]) ([1, 2] : List Nat) none).filterMap
      StreamEvent.updateOf = [1, 2] ∧
    (execute_entity
        (fun s => if s = "a" then some ⟨"agent", true⟩
          else if s = "w" then some ⟨"workflow", true⟩ else none) "w"
        (fun k => [100 + k]) ([1, 2] : List Nat) none).filterMap
      StreamEvent.traceOf = (List.range 3).flatMap fun k => [100 + k] := by
  have h := trace_interleaving_order
    (fun s => if s = "a" then some ⟨"agent", true⟩
      else if s = "w" then some ⟨"workflow", true⟩ else none) "a" "w"
    (fun k => [100 + k]) ([1, 2] : List Nat) rfl rfl
  exact ⟨rfl, rfl, h.2.2.1, h.2.2.2.1, h.2.2.2.2.2⟩

end DevUI
